import Mathlib

/-!
Verification of the Auralis audio-scene service (`src/app.py`) against its
specification.  The rule-based fusion function `analyze_audio` and the
`/analyze` request handler are shallowly embedded below; Python strings are
modelled as `List Char`, Python's `in` on strings as substring containment
(`containsSub`), `in` on lists as list membership (`List.contains`), and the
float confidences (0.3, 0.7, 0.8, 0.85, 0.9, 0.95) as natural numbers of
hundredths, which is exact for every value the code can produce.
-/

namespace Auralis

/-- Python strings, modelled as character lists. -/
abbrev Str := List Char

/-- Coerce a Lean string literal into the model's string type. -/
def str (s : String) : Str := s.toList

/-- ASCII lowercasing of one character, as Python's `str.lower` acts on the
ASCII letters occurring in this program. -/
def lowerChar (c : Char) : Char :=
  if 'A' ≤ c && c ≤ 'Z' then Char.ofNat (c.toNat + 32) else c

/-- `s.lower()`. -/
def lowerStr (s : Str) : Str := s.map lowerChar

/-- `needle` begins `hay` (helper for substring containment). -/
def leadsWith : Str → Str → Bool
  | [], _ => true
  | _ :: _, [] => false
  | a :: as, b :: bs => a == b && leadsWith as bs

/-- Python's `needle in hay` on strings: substring containment. -/
def containsSub (hay needle : Str) : Bool :=
  leadsWith needle hay ||
    (match hay with
     | [] => false
     | _ :: t => containsSub t needle)

/-- YAMNet label-to-score dictionary, as an association list; scores are
never read by the rules, so their numeric type is modelled as `Int`. -/
abbrev SoundMap := List (Str × Int)

/-- `[s.lower() for s in sounds.keys()]` (src/app.py line 168). -/
def soundKeys (sounds : SoundMap) : List Str :=
  sounds.map (fun p => lowerStr p.1)

/-- `airport_words` (src/app.py line 173). -/
def airport_words : List Str := [str "flight", str "boarding", str "gate", str "airport"]

/-- `rail_words` (line 176). -/
def rail_words : List Str := [str "train", str "platform", str "coach"]

/-- `emergency_words` (line 179). -/
def emergency_words : List Str := [str "help", str "fire", str "emergency", str "police", str "accident"]

/-- `emergency_sounds` (line 180). -/
def emergency_sounds : List Str := [str "siren", str "scream", str "alarm", str "glass", str "shouting"]

/-- `public_sounds` (line 183). -/
def public_sounds : List Str := [str "crowd", str "conversation"]

/-- `vehicle_sounds` (line 186). -/
def vehicle_sounds : List Str := [str "vehicle", str "engine", str "traffic", str "horn"]

/-- `any(w in text for w in emergency_words)` (line 203). -/
def emergencyTextB (text : Str) : Bool :=
  emergency_words.any (fun w => containsSub text w)

/-- `any(any(es in s for es in emergency_sounds) for s in sound_labels)`
(lines 204-206): an emergency sound name occurring as a substring of a label. -/
def emergencySoundB (sound_labels : List Str) : Bool :=
  sound_labels.any (fun s => emergency_sounds.any (fun es => containsSub s es))

/-- The airport-rule guard (line 208): an airport word is a substring of the
text, and some member of `public_sounds` is literally an element of the label
list (`s in sound_labels` is list membership). -/
def airportCondB (text : Str) (sound_labels : List Str) : Bool :=
  airport_words.any (fun w => containsSub text w) &&
    public_sounds.any (fun s => sound_labels.contains s)

/-- The railway-rule guard (line 215). -/
def railCondB (text : Str) (sound_labels : List Str) : Bool :=
  rail_words.any (fun w => containsSub text w) &&
    public_sounds.any (fun s => sound_labels.contains s)

/-- The road/traffic-rule guard (line 222): a vehicle sound is an element of
the label list. -/
def vehicleCondB (sound_labels : List Str) : Bool :=
  vehicle_sounds.any (fun s => sound_labels.contains s)

/-- The if/elif location chain (lines 191-226): location, situation,
evidence and confidence (in hundredths) produced by the three location rules,
or the defaults when none fires. -/
def ruleOutcome (text : Str) (sound_labels : List Str) : Str × Str × List Str × Nat :=
  if airportCondB text sound_labels then
    (str "Airport", str "Boarding", [str "Flight-related speech", str "Public crowd sounds"], 85)
  else if railCondB text sound_labels then
    (str "Railway Station", str "Waiting / Boarding", [str "Train-related speech", str "Crowd sounds"], 80)
  else if vehicleCondB sound_labels then
    (str "Road", str "Traffic", [str "Vehicle sounds detected"], 70)
  else
    (str "Unknown", str "Unknown", [], 30)

/-- Render a hundredths confidence the way Python prints the corresponding
float in the summary f-string (all reachable values are below 1.0 and have at
most two decimals: 0.3, 0.7, 0.8, 0.85, 0.9). -/
def confRender (c : Nat) : Str :=
  ['0', '.'] ++
    (if c % 10 == 0 then [Nat.digitChar (c / 10)]
     else [Nat.digitChar (c / 10), Nat.digitChar (c % 10)])

/-- The summary f-string of the non-emergency return (line 250). -/
def mkSummary (location situation : Str) (evidence : List Str) (confidence : Nat) : Str :=
  str "This audio likely comes from a " ++ lowerStr location ++
  str " during " ++ lowerStr situation ++
  str ", inferred from " ++ List.intercalate (str " ") evidence ++
  str " with a confidence of " ++ confRender confidence ++ str "."

/-- `round(confidence, 2)` (line 254): in the hundredths model rounding to two
decimals is the identity. -/
def roundC (c : Nat) : Nat := c

/-- The JSON verdict returned by `analyze_audio`.  The emergency return dict
carries a `confidence_reason` key that the normal return lacks, modelled with
`Option`. -/
structure Verdict where
  location : Str
  situation : Str
  confidence : Nat
  confidence_reason : Option Str
  evidence : List Str
  summary : Str
  transcribed : Str
deriving DecidableEq, Repr

/-- `analyze_audio(text, sounds)` (src/app.py lines 161-258): lowercases the
transcript and the label keys, runs the if/elif location rules, the
emergency-keyword override, and the final emergency-or-normal return. -/
def analyze_audio (text0 : Str) (sounds : SoundMap) : Verdict :=
  let text := lowerStr text0
  let sound_labels := soundKeys sounds
  let is_emergency_text := emergencyTextB text
  let is_emergency_sound := emergencySoundB sound_labels
  let r := ruleOutcome text sound_labels
  let location := r.1
  let situation0 := r.2.1
  let evidence0 := r.2.2.1
  let confidence0 := r.2.2.2
  -- emergency keyword override (lines 232-235); its effect is visible only
  -- until the final `if`, which returns the fixed emergency dict whenever
  -- `is_emergency_text` holds
  let situation := if is_emergency_text then str "Emergency" else situation0
  let evidence := if is_emergency_text then evidence0 ++ [str "Emergency keywords detected"] else evidence0
  let confidence := if is_emergency_text then max confidence0 90 else confidence0
  if is_emergency_text || is_emergency_sound then
    { location := location
      situation := str "Emergency"
      confidence := 95
      confidence_reason := some (str "High confidence due to presence of emergency keywords or sounds.")
      evidence := sound_labels
      summary := str "Emergency situation detected based on distress signals in the audio."
      transcribed := text }
  else
    { location := location
      situation := situation
      confidence := roundC confidence
      confidence_reason := none
      evidence := evidence
      summary := mkSummary location situation evidence confidence
      transcribed := text }

/-! ### The `/analyze` request handler (src/app.py lines 269-373)

The handler saves the upload, then inside a `try` block transcribes with
Whisper, loads the audio with librosa, classifies it with YAMNet, filters the
labels, and fuses with `analyze_audio`; any exception is caught and turned
into a fixed fallback JSON, and a `finally` block attempts the temp-file
deletion before either return.  The external models are modelled as an oracle
whose fallible steps return `Except`; the handler itself is a total function
of the oracle that also emits the trace of steps it performed. -/

/-- Audio waveform as produced by `librosa.load` (sample values abstracted). -/
abbrev Audio := List Int

/-- Results of the external, fallible steps of the handler: Whisper
transcription, librosa audio loading, and the YAMNet classification pipeline
(scores, mean, top-10, label lookup) producing the raw label-to-score dict.
`.error e` models the step raising an exception with message `e`. -/
structure Oracle where
  transcribe : Except Str Str
  loadAudio : Except Str Audio
  classify : Audio → Except Str SoundMap

/-- Observable steps of one request, in the order the handler performs them. -/
inductive Ev where
  | save
  | stt
  | load
  | classify
  | fuse
  | delete
  | ret
deriving DecidableEq, Repr

/-- The fallback JSON built by the `except` branch (lines 355-364). -/
structure ErrResponse where
  location : Str
  situation : Str
  confidence : Nat
  evidence : List Str
  summary : Str
  transcribed : Str
  error : Str
deriving DecidableEq, Repr

/-- The handler's response: the fused verdict, or the fallback JSON. -/
inductive Response where
  | ok : Verdict → Response
  | err : ErrResponse → Response
deriving DecidableEq, Repr

/-- `keywords` used to filter the raw YAMNet labels (lines 332-336). -/
def sound_filter_keywords : List Str :=
  [str "speech", str "conversation", str "crowd",
   str "vehicle", str "engine", str "traffic",
   str "aircraft", str "siren"]

/-- `{k: v for k, v in raw_sounds.items() if any(x in k.lower() for x in keywords)}`
(lines 338-341). -/
def filterSounds (raw : SoundMap) : SoundMap :=
  raw.filter (fun kv => sound_filter_keywords.any (fun x => containsSub (lowerStr kv.1) x))

/-- The fallback response with the caught exception's message (lines 356-364). -/
def errResponse (e : Str) : ErrResponse :=
  { location := str "Unknown"
    situation := str "Unknown"
    confidence := 0
    evidence := []
    summary := str "Error processing audio."
    transcribed := []
    error := e }

/-- `MAX_SECONDS * 16000` samples kept for YAMNet (lines 313-314). -/
def maxSamples : Nat := 15 * 16000

/-- The `try` block (lines 299-352): transcribe, load, truncate, classify,
filter, fuse; stops at the first raising step, returning its message. -/
def tryBody (o : Oracle) : Except Str Verdict × List Ev :=
  match o.transcribe with
  | .error e => (.error e, [Ev.stt])
  | .ok text =>
    match o.loadAudio with
    | .error e => (.error e, [Ev.stt, Ev.load])
    | .ok audio =>
      match o.classify (audio.take maxSamples) with
      | .error e => (.error e, [Ev.stt, Ev.load, Ev.classify])
      | .ok raw =>
        (.ok (analyze_audio text (filterSounds raw)), [Ev.stt, Ev.load, Ev.classify, Ev.fuse])

/-- The `/analyze` handler (lines 269-373): save, try-body, except-fallback,
and the `finally` deletion, which Python runs before the response (of either
branch) is delivered; the deletion's own failure is swallowed (lines 369-372),
so `delete` is always attempted and `ret` always follows it. -/
def analyzeHandler (o : Oracle) : Response × List Ev :=
  match tryBody o with
  | (.ok v, evs) => (.ok v, Ev.save :: evs ++ [Ev.delete, Ev.ret])
  | (.error e, evs) => (.err (errResponse e), Ev.save :: evs ++ [Ev.delete, Ev.ret])

/-- The message of the first step after the save that raises, if any. -/
def stepError (o : Oracle) : Option Str :=
  match o.transcribe with
  | .error e => some e
  | .ok _ =>
    match o.loadAudio with
    | .error e => some e
    | .ok audio =>
      match o.classify (audio.take maxSamples) with
      | .error e => some e
      | .ok _ => none

/-! ### Static import structure of `src/app.py` (for the dead-module claim) -/

/-- The modules imported by `src/app.py` (its `import` / `from … import`
statements, top level and inside `analyze`). -/
def appImports : List String :=
  ["os", "shutil", "subprocess", "fastapi", "librosa", "tensorflow",
   "tensorflow_hub", "numpy", "csv", "requests", "transformers",
   "fastapi.responses", "fastapi.middleware.cors", "uuid"]

/-- The neural-network module definitions under `src/Backend/models`. -/
def backendModelModules : List String :=
  ["Backend.models.init", "Backend.models.scene_classifier",
   "Backend.models.audio_transformes", "Backend.models.multimodal_fusion"]

/-! ### Helper lemmas -/

/-- The location field never depends on the emergency branch: both returns use
the location computed by the if/elif chain. -/
theorem analyze_audio_location (t : Str) (s : SoundMap) :
    (analyze_audio t s).location = (ruleOutcome (lowerStr t) (soundKeys s)).1 := by
  cases hb : (emergencyTextB (lowerStr t) || emergencySoundB (soundKeys s)) <;>
    simp [analyze_audio, hb]

/-- Characterization of the emergency return (src/app.py lines 239-249). -/
theorem analyze_audio_of_emergency (t : Str) (s : SoundMap)
    (h : (emergencyTextB (lowerStr t) || emergencySoundB (soundKeys s)) = true) :
    analyze_audio t s =
      { location := (ruleOutcome (lowerStr t) (soundKeys s)).1
        situation := str "Emergency"
        confidence := 95
        confidence_reason := some (str "High confidence due to presence of emergency keywords or sounds.")
        evidence := soundKeys s
        summary := str "Emergency situation detected based on distress signals in the audio."
        transcribed := lowerStr t } := by
  simp [analyze_audio, h]

/-- Characterization of the normal return (src/app.py lines 250-258). -/
theorem analyze_audio_of_not_emergency (t : Str) (s : SoundMap)
    (h : (emergencyTextB (lowerStr t) || emergencySoundB (soundKeys s)) = false) :
    analyze_audio t s =
      { location := (ruleOutcome (lowerStr t) (soundKeys s)).1
        situation := (ruleOutcome (lowerStr t) (soundKeys s)).2.1
        confidence := (ruleOutcome (lowerStr t) (soundKeys s)).2.2.2
        confidence_reason := none
        evidence := (ruleOutcome (lowerStr t) (soundKeys s)).2.2.1
        summary := mkSummary (ruleOutcome (lowerStr t) (soundKeys s)).1
          (ruleOutcome (lowerStr t) (soundKeys s)).2.1
          (ruleOutcome (lowerStr t) (soundKeys s)).2.2.1
          (ruleOutcome (lowerStr t) (soundKeys s)).2.2.2
        transcribed := lowerStr t } := by
  rw [Bool.or_eq_false_iff] at h
  simp [analyze_audio, roundC, h.1, h.2]

/-! ### Claim theorems -/

/-- C1.  Emergency override: whenever an emergency keyword occurs in the
lowercased transcript or an emergency sound name occurs as a substring of a
lowercased label, `analyze_audio` returns situation "Emergency" with
confidence 0.95, while keeping the location chosen by the location rules
("Unknown" when none fired). -/
theorem emergency_override_verdict (t : Str) (s : SoundMap)
    (h : (emergencyTextB (lowerStr t) || emergencySoundB (soundKeys s)) = true) :
    (analyze_audio t s).situation = str "Emergency" ∧
    (analyze_audio t s).confidence = 95 ∧
    (analyze_audio t s).location = (ruleOutcome (lowerStr t) (soundKeys s)).1 := by
  rw [analyze_audio_of_emergency t s h]
  exact ⟨rfl, rfl, rfl⟩

/-- Witness for C1 at transcript "help" with no sounds. -/
theorem emergency_override_verdict_witness :
    (analyze_audio (str "help") []).situation = str "Emergency" ∧
    (analyze_audio (str "help") []).confidence = 95 ∧
    (analyze_audio (str "help") []).location = (ruleOutcome (lowerStr (str "help")) (soundKeys [])).1 :=
  emergency_override_verdict (str "help") [] (by decide)

/-- C2, counterexample.  The claim reads the public-sound check as substring
containment, but line 208 tests `s in sound_labels`, i.e. exact list
membership: with transcript "flight" and the single label "crowd noise"
(which contains "crowd" as a substring and carries no emergency signal), the
airport rule does not fire and the default verdict is returned instead of
Airport/Boarding/0.85. -/
theorem airport_rule_containment_counterexample :
    containsSub (lowerStr (str "flight")) (str "flight") = true ∧
    containsSub (lowerStr (str "crowd noise")) (str "crowd") = true ∧
    (emergencyTextB (lowerStr (str "flight")) ||
      emergencySoundB (soundKeys [(str "crowd noise", 0)])) = false ∧
    (analyze_audio (str "flight") [(str "crowd noise", 0)]).location ≠ str "Airport" ∧
    (analyze_audio (str "flight") [(str "crowd noise", 0)]).situation ≠ str "Boarding" ∧
    (analyze_audio (str "flight") [(str "crowd noise", 0)]).confidence ≠ 85 := by
  decide

/-- C2, amended.  Airport rule with the label check as exact membership: when
no emergency signal is present, an airport word is a substring of the
lowercased transcript, and "crowd" or "conversation" is literally one of the
lowercased labels, `analyze_audio` returns Airport / Boarding / 0.85. -/
theorem airport_rule_membership (t : Str) (s : SoundMap)
    (hne : (emergencyTextB (lowerStr t) || emergencySoundB (soundKeys s)) = false)
    (hc : airportCondB (lowerStr t) (soundKeys s) = true) :
    (analyze_audio t s).location = str "Airport" ∧
    (analyze_audio t s).situation = str "Boarding" ∧
    (analyze_audio t s).confidence = 85 := by
  rw [analyze_audio_of_not_emergency t s hne]
  simp [ruleOutcome, hc]

/-- Witness for the amended C2 at transcript "flight" and label "crowd". -/
theorem airport_rule_membership_witness :
    (analyze_audio (str "flight") [(str "crowd", 0)]).location = str "Airport" ∧
    (analyze_audio (str "flight") [(str "crowd", 0)]).situation = str "Boarding" ∧
    (analyze_audio (str "flight") [(str "crowd", 0)]).confidence = 85 :=
  airport_rule_membership (str "flight") [(str "crowd", 0)] (by decide) (by decide)

/-- C3.  Precedence of the if/elif chain: when both the airport and the
railway guards hold (and no emergency signal is present) the Airport verdict
is returned, not the Railway Station one; and whenever the airport or railway
guard holds, the road rule cannot determine the location. -/
theorem rule_precedence (t : Str) (s : SoundMap) :
    (airportCondB (lowerStr t) (soundKeys s) = true →
      railCondB (lowerStr t) (soundKeys s) = true →
      (emergencyTextB (lowerStr t) || emergencySoundB (soundKeys s)) = false →
      (analyze_audio t s).location = str "Airport" ∧
      (analyze_audio t s).situation = str "Boarding" ∧
      (analyze_audio t s).location ≠ str "Railway Station") ∧
    ((airportCondB (lowerStr t) (soundKeys s) || railCondB (lowerStr t) (soundKeys s)) = true →
      (analyze_audio t s).location ≠ str "Road") := by
  constructor
  · intro hA _ hne
    rw [analyze_audio_of_not_emergency t s hne]
    simp [ruleOutcome, hA]
    decide
  · intro h
    rw [analyze_audio_location]
    cases hA : airportCondB (lowerStr t) (soundKeys s) with
    | true => simp [ruleOutcome, hA]; decide
    | false =>
      have hR : railCondB (lowerStr t) (soundKeys s) = true := by
        simpa [hA] using h
      simp [ruleOutcome, hA, hR]
      decide

/-- Witness for C3 at a transcript triggering both the airport and railway
guards with a "crowd" label. -/
theorem rule_precedence_witness :
    (analyze_audio (str "flight from the train platform") [(str "crowd", 0)]).location = str "Airport" ∧
    (analyze_audio (str "flight from the train platform") [(str "crowd", 0)]).situation = str "Boarding" ∧
    (analyze_audio (str "flight from the train platform") [(str "crowd", 0)]).location ≠ str "Railway Station" ∧
    (analyze_audio (str "flight from the train platform") [(str "crowd", 0)]).location ≠ str "Road" := by
  have h := rule_precedence (str "flight from the train platform") [(str "crowd", 0)]
  have h1 := h.1 (by decide) (by decide) (by decide)
  exact ⟨h1.1, h1.2.1, h1.2.2, h.2 (by decide)⟩

/-- C4.  Road/Traffic rule: when neither the airport nor the railway guard
holds, no emergency signal is present, and a vehicle sound is among the
lowercased labels, `analyze_audio` returns Road / Traffic / 0.7, with no
condition on the transcript. -/
theorem road_rule (t : Str) (s : SoundMap)
    (hA : airportCondB (lowerStr t) (soundKeys s) = false)
    (hR : railCondB (lowerStr t) (soundKeys s) = false)
    (hne : (emergencyTextB (lowerStr t) || emergencySoundB (soundKeys s)) = false)
    (hv : vehicleCondB (soundKeys s) = true) :
    (analyze_audio t s).location = str "Road" ∧
    (analyze_audio t s).situation = str "Traffic" ∧
    (analyze_audio t s).confidence = 70 := by
  rw [analyze_audio_of_not_emergency t s hne]
  simp [ruleOutcome, hA, hR, hv]

/-- Witness for C4 at an empty transcript and label "engine". -/
theorem road_rule_witness :
    (analyze_audio [] [(str "engine", 0)]).location = str "Road" ∧
    (analyze_audio [] [(str "engine", 0)]).situation = str "Traffic" ∧
    (analyze_audio [] [(str "engine", 0)]).confidence = 70 :=
  road_rule [] [(str "engine", 0)] (by decide) (by decide) (by decide) (by decide)

/-- C5.  Default verdict: `analyze_audio` is a total function of transcript
and sound map (it is a Lean `def`), and when no location rule fires and no
emergency signal is present it returns Unknown / Unknown / 0.3. -/
theorem default_verdict (t : Str) (s : SoundMap)
    (hA : airportCondB (lowerStr t) (soundKeys s) = false)
    (hR : railCondB (lowerStr t) (soundKeys s) = false)
    (hv : vehicleCondB (soundKeys s) = false)
    (hne : (emergencyTextB (lowerStr t) || emergencySoundB (soundKeys s)) = false) :
    (analyze_audio t s).location = str "Unknown" ∧
    (analyze_audio t s).situation = str "Unknown" ∧
    (analyze_audio t s).confidence = 30 := by
  rw [analyze_audio_of_not_emergency t s hne]
  simp [ruleOutcome, hA, hR, hv]

/-- Witness for C5 at the empty transcript and empty sound map. -/
theorem default_verdict_witness :
    (analyze_audio [] []).location = str "Unknown" ∧
    (analyze_audio [] []).situation = str "Unknown" ∧
    (analyze_audio [] []).confidence = 30 :=
  default_verdict [] [] (by decide) (by decide) (by decide) (by decide)

/-- C6.  Request flow and cleanup: every trace of the handler starts with the
save, runs transcription, audio loading, classification and fusion in that
order up to the first failing step, and always attempts the temp-file
deletion before returning, on the success path and on the exception path
alike. -/
theorem handler_trace (o : Oracle) :
    (analyzeHandler o).2 = [Ev.save, Ev.stt, Ev.delete, Ev.ret] ∨
    (analyzeHandler o).2 = [Ev.save, Ev.stt, Ev.load, Ev.delete, Ev.ret] ∨
    (analyzeHandler o).2 = [Ev.save, Ev.stt, Ev.load, Ev.classify, Ev.delete, Ev.ret] ∨
    (analyzeHandler o).2 = [Ev.save, Ev.stt, Ev.load, Ev.classify, Ev.fuse, Ev.delete, Ev.ret] := by
  cases ht : o.transcribe with
  | error e => exact Or.inl (by simp [analyzeHandler, tryBody, ht])
  | ok text =>
    cases hl : o.loadAudio with
    | error e => exact Or.inr (Or.inl (by simp [analyzeHandler, tryBody, ht, hl]))
    | ok audio =>
      cases hc : o.classify (audio.take maxSamples) with
      | error e => exact Or.inr (Or.inr (Or.inl (by simp [analyzeHandler, tryBody, ht, hl, hc])))
      | ok raw => exact Or.inr (Or.inr (Or.inr (by simp [analyzeHandler, tryBody, ht, hl, hc])))

/-- C7.  Dead neural-network modules: none of the module definitions under
`src/Backend/models` is among the modules imported by `src/app.py`, so the
served `/analyze` path never loads or invokes them and its embedded behaviour
(`analyzeHandler`, built from `src/app.py` alone) is unchanged by their
removal. -/
theorem dead_backend_modules (m : String) (h : m ∈ backendModelModules) :
    m ∉ appImports := by
  simp only [backendModelModules, List.mem_cons, List.not_mem_nil, or_false] at h
  rcases h with rfl | rfl | rfl | rfl <;> decide

/-- Witness for C7 at the scene-classifier module. -/
theorem dead_backend_modules_witness :
    ("Backend.models.scene_classifier" : String) ∉ appImports :=
  dead_backend_modules "Backend.models.scene_classifier" (by decide)

/-- C8.  Error fallback: if any step after the save raises (transcription,
audio loading, or classification; the embedded fusion is a total function and
cannot raise), the handler catches the exception and returns the fixed
fallback JSON: Unknown / Unknown / 0.0, empty evidence, empty transcript, and
the exception's message under the `error` key. -/
theorem error_fallback (o : Oracle) (e : Str) (h : stepError o = some e) :
    (analyzeHandler o).1 = Response.err
      { location := str "Unknown"
        situation := str "Unknown"
        confidence := 0
        evidence := []
        summary := str "Error processing audio."
        transcribed := []
        error := e } := by
  unfold stepError at h
  cases ht : o.transcribe with
  | error e' =>
    simp [ht] at h
    subst h
    simp [analyzeHandler, tryBody, ht, errResponse]
  | ok text =>
    cases hl : o.loadAudio with
    | error e' =>
      simp [ht, hl] at h
      subst h
      simp [analyzeHandler, tryBody, ht, hl, errResponse]
    | ok audio =>
      cases hc : o.classify (audio.take maxSamples) with
      | error e' =>
        simp [ht, hl, hc] at h
        subst h
        simp [analyzeHandler, tryBody, ht, hl, hc, errResponse]
      | ok raw =>
        simp [ht, hl, hc] at h

/-- Witness for C8 at an oracle whose transcription raises "boom". -/
theorem error_fallback_witness :
    (analyzeHandler ⟨Except.error (str "boom"), Except.ok [], fun _ => Except.ok []⟩).1 =
      Response.err
        { location := str "Unknown"
          situation := str "Unknown"
          confidence := 0
          evidence := []
          summary := str "Error processing audio."
          transcribed := []
          error := str "boom" } :=
  error_fallback ⟨Except.error (str "boom"), Except.ok [], fun _ => Except.ok []⟩ (str "boom") rfl

/-- C9, counterexample.  Two sound maps with the same key set (and different
scores) can produce different verdicts: in the emergency branch the returned
`evidence` is the lowercased key list itself, so key order is observable.
With labels {siren, crowd} in the two insertion orders the verdicts differ. -/
theorem score_blindness_counterexample :
    ((([(str "siren", (0 : Int)), (str "crowd", 1)] : SoundMap).map Prod.fst).all
        (fun k => (([(str "crowd", (5 : Int)), (str "siren", 7)] : SoundMap).map Prod.fst).contains k)) = true ∧
    ((([(str "crowd", (5 : Int)), (str "siren", 7)] : SoundMap).map Prod.fst).all
        (fun k => (([(str "siren", (0 : Int)), (str "crowd", 1)] : SoundMap).map Prod.fst).contains k)) = true ∧
    analyze_audio [] [(str "siren", 0), (str "crowd", 1)] ≠
      analyze_audio [] [(str "crowd", 5), (str "siren", 7)] := by
  decide

/-- C9, amended.  Sound scores are ignored: the verdict depends on the sounds
argument only through its key sequence; two maps with the same keys in the
same order and arbitrary scores yield identical verdicts (with the same key
set in a different order, the emergency branch's echoed evidence list can
differ). -/
theorem score_blindness (t : Str) (s1 s2 : SoundMap)
    (h : s1.map Prod.fst = s2.map Prod.fst) :
    analyze_audio t s1 = analyze_audio t s2 := by
  have hk : soundKeys s1 = soundKeys s2 := by
    unfold soundKeys
    rw [show (fun (p : Str × Int) => lowerStr p.1) = lowerStr ∘ Prod.fst from rfl,
      ← List.map_map, ← List.map_map, h]
  unfold analyze_audio
  rw [hk]

/-- Witness for the amended C9: same key, different scores. -/
theorem score_blindness_witness :
    analyze_audio [] [(str "crowd", 0)] = analyze_audio [] [(str "crowd", 9)] :=
  score_blindness [] [(str "crowd", 0)] [(str "crowd", 9)] rfl

/-- C10.  Case invariance and lowercased echo: the verdict is unchanged under
any change of letter case in the transcript or the sound labels (inputs with
equal lowercasings give equal verdicts), and the `transcribed` field always
holds the lowercased transcript. -/
theorem case_invariance :
    (∀ (t t' : Str) (s s' : SoundMap), lowerStr t = lowerStr t' →
      soundKeys s = soundKeys s' → analyze_audio t s = analyze_audio t' s') ∧
    (∀ (t : Str) (s : SoundMap), (analyze_audio t s).transcribed = lowerStr t) := by
  constructor
  · intro t t' s s' h1 h2
    unfold analyze_audio
    rw [h1, h2]
  · intro t s
    cases hb : (emergencyTextB (lowerStr t) || emergencySoundB (soundKeys s)) <;>
      simp [analyze_audio, hb]

/-- Witness for C10 at "HELP"/"help" with label "Siren"/"siren". -/
theorem case_invariance_witness :
    analyze_audio (str "HELP") [(str "Siren", 0)] = analyze_audio (str "help") [(str "siren", 0)] ∧
    (analyze_audio (str "HELP") [(str "Siren", 0)]).transcribed = lowerStr (str "HELP") :=
  ⟨case_invariance.1 (str "HELP") (str "help") [(str "Siren", 0)] [(str "siren", 0)]
      (by decide) (by decide),
    case_invariance.2 (str "HELP") [(str "Siren", 0)]⟩

end Auralis
